import Mathlib

/-!
# BME280 character-device driver: embedding and verified properties

Shallow embedding of `Linux/drivers/misc/bme280/bme280.c` (with the register
map of `bme280.h`).  The two-wire bus is the only external actor that the
driver talks to: it is modelled as an arbitrary function from the history of
transfers and the current transfer to a reply, and every transfer handed to it
is recorded in a log, so that statements about "which bus transactions were
issued" are statements about that log.
-/

namespace BME280

/-! ## Constants -/

/-- Register addresses, from the anonymous enum of `bme280.h`. -/
def BME280_REGISTER_CHIPID : Nat := 0xD0
def BME280_REGISTER_SOFTRESET : Nat := 0xE0
def BME280_REGISTER_CONTROLHUMID : Nat := 0xF2
def BME280_REGISTER_STATUS : Nat := 0xF3
def BME280_REGISTER_CONTROL : Nat := 0xF4
def BME280_REGISTER_CONFIG : Nat := 0xF5
def BME280_REGISTER_TEMPDATA_MSB : Nat := 0xFA
def BME280_REGISTER_TEMPDATA_LSB : Nat := 0xFB
def BME280_REGISTER_TEMPDATA_XLSB : Nat := 0xFC

/-- Power mode `MODE_SLEEP` of `enum sensor_mode`. -/
def MODE_SLEEP : Nat := 0

/-- Size of the per-device data buffer (`#define BME_SIZE 32`). -/
def BME_SIZE : Nat := 32

/-- Linux errno values used by the driver (`errno-base.h`). -/
def EINTR : Int := 4
def EIO : Int := 5
def ENXIO : Int := 6
def ENOMEM : Int := 12
def ENODEV : Int := 19

/-- Read flag of an I2C message (`I2C_M_RD` of `linux/i2c.h`). -/
def I2C_M_RD : Nat := 1

/-! ## Bus model -/

/-- One `struct i2c_msg`.  For a write message `buf` holds the `len` bytes the
message points at (the bytes put on the wire after the address); for a read
message `buf` is empty, the byte read is delivered by the reply. -/
structure i2c_msg where
  addr : Nat
  flags : Nat
  len : Nat
  buf : List Nat
deriving DecidableEq, Repr

/-- The part of `struct i2c_client` the driver uses: the bus address. -/
structure i2c_client where
  addr : Nat
deriving DecidableEq, Repr

/-- What the adapter answers to one `i2c_transfer`: the return value (negative
on failure) and the byte left in the read buffer, if there is a read message. -/
structure Reply where
  ret : Int
  rd : Nat
deriving DecidableEq, Repr

/-- Behaviour of the bus adapter: any function of the transfers seen so far and
of the transfer being made. -/
abbrev Adapter := List (List i2c_msg) → List i2c_msg → Reply

/-- Observable state outside the driver: the transfers handed to the adapter
(oldest first) and the total time spent in `mdelay`, in milliseconds. -/
structure World where
  log : List (List i2c_msg)
  delay_ms : Nat
deriving DecidableEq, Repr

/-- Kernel `i2c_transfer`: hands the messages to the adapter and records them. -/
def i2c_transfer (bus : Adapter) (w : World) (msgs : List i2c_msg) : Reply × World :=
  (bus w.log msgs, { w with log := w.log ++ [msgs] })

/-- Kernel `mdelay`. -/
def mdelay (ms : Nat) (w : World) : World :=
  { w with delay_ms := w.delay_ms + ms }

/-! ## Register access (`bme280_write`, `bme280_read`) -/

/-- Source `bme280_write`: one write message of length 1 whose buffer is the
address of the parameter `data`; `reg_addr` is not referenced by the body. -/
def bme280_write (bus : Adapter) (client : i2c_client) (reg_addr : Nat) (data : Nat)
    (w : World) : Int × World :=
  let retval : Int := 0
  let msg : List i2c_msg := [{ addr := client.addr, flags := 0, len := 1, buf := [data] }]
  let r := i2c_transfer bus w msg
  if r.1.ret < 0 then (-1, r.2) else (retval, r.2)

/-- Source `bme280_read`: a write message carrying the register address followed
by a one-byte read message.  Returns the status and the content of `*data`
(an `unsigned char`) after the transfer. -/
def bme280_read (bus : Adapter) (client : i2c_client) (reg_addr : Nat)
    (w : World) : Int × Nat × World :=
  let retval : Int := 0
  let msg : List i2c_msg :=
    [{ addr := client.addr, flags := 0, len := 1, buf := [reg_addr] },
     { addr := client.addr, flags := I2C_M_RD, len := 1, buf := [] }]
  let r := i2c_transfer bus w msg
  if r.1.ret < 0 then (- ENXIO, r.1.rd % 256, r.2) else (retval, r.1.rd % 256, r.2)

/-! ## Device structure and sample decoding -/

/-- Source `struct bme_dev`: the data buffer (`none` is the NULL pointer) and the
bound client.  The mutex is represented by the outcome of taking it, see
`ReadEnv`. -/
structure bme_dev where
  data : Option (List Nat)
  client : i2c_client
deriving DecidableEq, Repr

/-- Bytes of an `unsigned int` in memory (little-endian, 4 bytes). -/
def u32_bytes (v : Nat) : List Nat :=
  [v % 256, v / 256 % 256, v / 65536 % 256, v / 16777216 % 256]

/-- The C expression `memcpy(p, &value, sizeof(unsigned int))` on a buffer. -/
def memcpy_u32 (buf : List Nat) (v : Nat) : List Nat :=
  u32_bytes (v % 2 ^ 32) ++ buf.drop 4

/-- The C expression `*((unsigned int*)p)` on a buffer. -/
def load_u32 (buf : List Nat) : Nat :=
  buf.getD 0 0 + 256 * buf.getD 1 0 + 65536 * buf.getD 2 0 + 16777216 * buf.getD 3 0

/-- Source `bme280_read_temperature`.  `none` stands for the dereference of a
NULL `dev->data`. -/
def bme280_read_temperature (bus : Adapter) (dev : bme_dev) (w : World) :
    Option (Int × bme_dev × World) :=
  let retval : Int := 0
  let r1 := bme280_read bus dev.client BME280_REGISTER_TEMPDATA_MSB w
  if r1.1 < 0 then some (- ENXIO, dev, r1.2.2) else
  let value : Nat := ((r1.2.1 &&& 0xFF) <<< 12) % 2 ^ 32
  let r2 := bme280_read bus dev.client BME280_REGISTER_TEMPDATA_LSB r1.2.2
  if r2.1 < 0 then some (- ENXIO, dev, r2.2.2) else
  let value : Nat := value ||| (((r2.2.1 &&& 0xFF) <<< 4) % 2 ^ 32)
  let r3 := bme280_read bus dev.client BME280_REGISTER_TEMPDATA_XLSB r2.2.2
  if r3.1 < 0 then some (- ENXIO, dev, r3.2.2) else
  let value : Nat := value ||| ((r3.2.1 &&& 0xF) % 2 ^ 32)
  match dev.data with
  | none => none
  | some buf => some (retval, { dev with data := some (memcpy_u32 buf value) }, r3.2.2)

/-! ## Text formatting (`"%d,\n"`) -/

/-- Decimal digits of a natural number, most significant first (the digit loop
of the kernel's number formatting). -/
def dec_digits (n : Nat) : List Char :=
  if n < 10 then [Nat.digitChar n] else dec_digits (n / 10) ++ [Nat.digitChar (n % 10)]
decreasing_by omega

/-- An `unsigned int` argument read by a `%d` conversion, as the `int` with the
same 32-bit pattern. -/
def int_of_u32 (v : Nat) : Int :=
  if v % 2 ^ 32 < 2 ^ 31 then ((v % 2 ^ 32 : Nat) : Int) else ((v % 2 ^ 32 : Nat) : Int) - 2 ^ 32

/-- The conversion `%d` of the C format language. -/
def fmt_d (x : Int) : List Char :=
  if x < 0 then '-' :: dec_digits x.natAbs else dec_digits x.toNat

/-- Text written by `sprintf(value_buf, "%d,\n", v)` for an `unsigned int v`
(without the terminating NUL). -/
def sprintf_value (v : Nat) : List Char :=
  fmt_d (int_of_u32 v) ++ [',', '\n']

/-! ## File operations (`bme_open`, `bme_release`, `bme_read`) -/

/-- The C expression `memset(p, 0, n)` on a buffer. -/
def memset_zero (buf : List Nat) (n : Nat) : List Nat :=
  List.replicate n 0 ++ buf.drop n

/-- Source `bme_open` (after `container_of`, which cannot yield NULL or a
different `cdev`): allocates the zeroed data buffer; `kzalloc_ok = false` is an
allocation failure. -/
def bme_open (kzalloc_ok : Bool) (dev : bme_dev) : Int × bme_dev :=
  if kzalloc_ok then (0, { dev with data := some (List.replicate BME_SIZE 0) })
  else (- ENOMEM, { dev with data := none })

/-- Source `bme_release`. -/
def bme_release (dev : bme_dev) : Int × bme_dev :=
  match dev.data with
  | some _ => (0, { dev with data := none })
  | none => (0, dev)

/-- Outcomes of the kernel services `bme_read` calls: whether
`mutex_lock_killable` was interrupted, whether `kmalloc` succeeded, whether
`copy_to_user` faulted. -/
structure ReadEnv where
  lock_killed : Bool
  kmalloc_ok : Bool
  copy_fault : Bool
deriving DecidableEq, Repr

/-- Everything a call of `bme_read` leaves behind: its return value, the file
position `*f_pos`, the bytes copied to the user buffer, the device and the
world. -/
structure ReadOut where
  retval : Int
  f_pos : Int
  user : List Char
  dev : bme_dev
  w : World
deriving DecidableEq, Repr

/-- Source `bme_read`.  `none` stands for the dereference of a NULL
`dev->data`. -/
def bme_read (bus : Adapter) (env : ReadEnv) (dev : bme_dev) (count : Nat) (f_pos : Int)
    (w : World) : Option ReadOut :=
  let retval : Int := 0
  if env.lock_killed then some ⟨- EINTR, f_pos, [], dev, w⟩ else
  if f_pos ≥ (BME_SIZE : Int) then some ⟨retval, f_pos, [], dev, w⟩ else
  let count := if count > BME_SIZE then BME_SIZE else count
  match dev.data with
  | none => none
  | some buf =>
    match bme280_read_temperature bus { dev with data := some (memset_zero buf BME_SIZE) } w with
    | none => none
    | some (rt, dev2, w2) =>
      if rt < 0 then some ⟨- EIO, f_pos, [], dev2, w2⟩ else
      match dev2.data with
      | none => none
      | some buf2 =>
        let value_buf := sprintf_value (load_u32 buf2)
        let bufsize : Nat := value_buf.length
        if !env.kmalloc_ok then some ⟨- ENOMEM, f_pos, [], dev2, w2⟩ else
        if env.copy_fault then some ⟨- EIO, f_pos, [], dev2, w2⟩ else
        some ⟨(bufsize : Int), f_pos, value_buf.take bufsize, dev2, w2⟩

/-! ## Initialisation (`is_reading_calibration`, `bme280_set_sampling`, `bme280_probe`) -/

/-- Conversion of a C `int` to `bool`. -/
def int_to_bool (x : Int) : Bool := x != 0

/-- Source `is_reading_calibration`, a function returning `bool`: the failure
branch returns the `int` value `-ENXIO`, converted to `bool`. -/
def is_reading_calibration (bus : Adapter) (client : i2c_client) (w : World) : Bool × World :=
  let r := bme280_read bus client BME280_REGISTER_STATUS w
  if r.1 < 0 then (int_to_bool (- ENXIO), r.2.2)
  else (decide ((r.2.1 &&& 1) = 1), r.2.2)

/-- Source `bme280_set_sampling`, a `void` function: the four results of
`bme280_write` are discarded. -/
def bme280_set_sampling (bus : Adapter) (client : i2c_client) (w : World) : World :=
  let w1 := (bme280_write bus client BME280_REGISTER_CONTROL MODE_SLEEP w).2
  let w2 := (bme280_write bus client BME280_REGISTER_CONTROLHUMID 0 w1).2
  let w3 := (bme280_write bus client BME280_REGISTER_CONFIG 0xC w2).2
  (bme280_write bus client BME280_REGISTER_CONTROL 0x92 w3).2

/-- The `while (is_reading_calibration(client))` loop of `bme280_probe`, entered
with the current value of `reset_check`.  `some e` is the `return e` inside the
loop, `none` is leaving the loop by its condition. -/
def calibration_loop (bus : Adapter) (client : i2c_client) (w : World) (reset_check : Nat) :
    Option Int × World :=
  let c := is_reading_calibration bus client w
  if c.1 then
    let w1 := mdelay (1 * 1000) c.2
    if reset_check > 10 then (some (- ENXIO), w1)
    else calibration_loop bus client w1 (reset_check + 1)
  else (none, c.2)
termination_by 11 - reset_check
decreasing_by omega

/-- Outcomes of the kernel services `bme280_probe` calls after the sensor is
configured: `i2c_check_functionality`, the return value of
`alloc_chrdev_region`, the error carried by the pointer `class_create` returns
(`none` for a valid pointer), whether `kzalloc` succeeded, the return value of
`cdev_add`, and the error carried by the pointer `device_create` returns. -/
structure ProbeEnv where
  functionality : Bool
  alloc_chrdev_region : Int
  class_create : Option Int
  kzalloc_ok : Bool
  cdev_add : Int
  device_create : Option Int
deriving DecidableEq, Repr

/-- Result of `bme280_probe`: the return value, the device stored with
`i2c_set_clientdata` (`none` when the device was not attached), the world. -/
structure ProbeOut where
  err : Int
  clientdata : Option bme_dev
  w : World
deriving DecidableEq, Repr

/-- Source `bme280_probe`. -/
def bme280_probe (bus : Adapter) (env : ProbeEnv) (client : i2c_client) (w : World) : ProbeOut :=
  let reset_check : Nat := 0
  if !env.functionality then ⟨- EIO, none, w⟩ else
  let r := bme280_read bus client BME280_REGISTER_CHIPID w
  if r.1 < 0 then ⟨- ENXIO, none, r.2.2⟩ else
  if r.2.1 ≠ 0x60 then ⟨- ENODEV, none, r.2.2⟩ else
  let s := bme280_write bus client BME280_REGISTER_SOFTRESET 0xB6 r.2.2
  if s.1 < 0 then ⟨- ENXIO, none, s.2⟩ else
  let w1 := mdelay (1 * 1000) s.2
  match calibration_loop bus client w1 reset_check with
  | (some e, w2) => ⟨e, none, w2⟩
  | (none, w2) =>
    let w3 := bme280_set_sampling bus client w2
    if env.alloc_chrdev_region < 0 then ⟨env.alloc_chrdev_region, none, w3⟩ else
    match env.class_create with
    | some e => ⟨e, none, w3⟩
    | none =>
      if !env.kzalloc_ok then ⟨- ENOMEM, none, w3⟩ else
      let bme_device : bme_dev := { data := none, client := client }
      if env.cdev_add ≠ 0 then ⟨env.cdev_add, none, w3⟩ else
      match env.device_create with
      | some e => ⟨e, none, w3⟩
      | none => ⟨0, some bme_device, w3⟩

/-! ## Scripted adapters used to run the driver on concrete inputs -/

/-- An adapter that answers the `n`-th transfer with the `n`-th entry of a
script and with `dflt` once the script is exhausted. -/
def scripted (script : List Reply) (dflt : Reply) : Adapter :=
  fun hist _ => script.getD hist.length dflt

/-! ## Vocabulary of the statements -/

/-- The two messages of a register read: the register address written, then one
byte read. -/
def read_transfer (client : i2c_client) (reg : Nat) : List i2c_msg :=
  [{ addr := client.addr, flags := 0, len := 1, buf := [reg] },
   { addr := client.addr, flags := I2C_M_RD, len := 1, buf := [] }]

/-- The register write the specification describes: one write message carrying
the register address followed by the payload byte. -/
def spec_write_transfer (client : i2c_client) (reg : Nat) (b : Nat) : List i2c_msg :=
  [{ addr := client.addr, flags := 0, len := 2, buf := [reg, b] }]

/-- The bit-packing formula of the specification for a raw sample. -/
def spec_raw_sample (msb lsb xlsb : Nat) : Nat :=
  (msb <<< 12) ||| (lsb <<< 4) ||| (xlsb &&& 0xF)

/-- The `unsigned int` held at the start of the data buffer after a call of
`bme280_read_temperature` that returned 0. -/
def decoded (r : Option (Int × bme_dev × World)) : Option Nat :=
  match r with
  | some (0, dev, _) => dev.data.map load_u32
  | _ => none

/-- The world after one more transfer. -/
def World.after (w : World) (msgs : List i2c_msg) : World :=
  { w with log := w.log ++ [msgs] }

/-- Standard integer parsing of the leading run of decimal digits of a text. -/
def parse_digit_prefix (s : List Char) : Nat :=
  (s.takeWhile Char.isDigit).foldl (fun acc c => 10 * acc + (c.toNat - '0'.toNat)) 0

/-! ## Concrete inputs -/

/-- A client at the primary bus address `BME280_ADDRESS`. -/
def client0 : i2c_client := { addr := 0x77 }

/-- The world before any transfer. -/
def w0 : World := { log := [], delay_ms := 0 }

/-- The device structure as `bme280_probe` leaves it (no buffer yet). -/
def dev0 : bme_dev := { data := none, client := client0 }

/-- The device structure right after a successful `bme_open`. -/
def dev_open : bme_dev := (bme_open true dev0).2

/-- A successful reply carrying the byte `b`. -/
def ok (b : Nat) : Reply := { ret := 1, rd := b }

/-- A failed transfer. -/
def nak : Reply := { ret := -5, rd := 0 }

/-- The sample of the specification's test vector: MSB 0x1A, LSB 0xB0, XLSB 0x50. -/
def bus_sample : Adapter := scripted [ok 0x1A, ok 0xB0, ok 0x50] nak

/-- Another sample: MSB 0x80, LSB 0x00, XLSB 0x07, answered to every read. -/
def bus_sample2 : Adapter := scripted [ok 0x80, ok 0x00, ok 0x07] nak

/-- A device answering the identity read with 0x61. -/
def bus_wrong_id : Adapter := scripted [ok 0x61] (ok 0)

/-- Kernel services that all succeed during `bme280_probe`. -/
def probe_env_ok : ProbeEnv :=
  { functionality := true, alloc_chrdev_region := 0, class_create := none,
    kzalloc_ok := true, cdev_add := 0, device_create := none }

/-- A device that identifies itself, accepts the soft reset, and then reports
the calibration-busy bit on every later transfer. -/
def bus_busy : Adapter := scripted [ok 0x60, ok 0] (ok 1)

/-- A device whose first status read fails on the bus and whose second status
read reports "not busy"; everything else succeeds. -/
def bus_status_fail : Adapter := scripted [ok 0x60, ok 0, nak, ok 0] (ok 0)

/-- A device that is ready at the first status read and then fails each of the
four configuration writes. -/
def bus_config_fail : Adapter := scripted [ok 0x60, ok 0, ok 0, nak, nak, nak, nak] nak

/-- Kernel services that all succeed during `bme_read`. -/
def read_env_ok : ReadEnv := { lock_killed := false, kmalloc_ok := true, copy_fault := false }

/-- A sensor answering every read with the byte 0x21. -/
def bus_const : Adapter := scripted [] (ok 0x21)

/-! ## Basic facts on register access -/

theorem bme280_read_ok (bus : Adapter) (client : i2c_client) (reg : Nat) (w : World)
    (r : Int) (v : Nat) (h : bus w.log (read_transfer client reg) = ⟨r, v⟩) (hr : 0 ≤ r) :
    bme280_read bus client reg w = (0, v % 256, w.after (read_transfer client reg)) := by
  have h' : bus w.log [{ addr := client.addr, flags := 0, len := 1, buf := [reg] },
      { addr := client.addr, flags := I2C_M_RD, len := 1, buf := [] }] = ⟨r, v⟩ := h
  simp only [bme280_read, i2c_transfer, h', World.after, read_transfer]
  rw [if_neg (by omega)]

theorem bme280_read_fail (bus : Adapter) (client : i2c_client) (reg : Nat) (w : World)
    (r : Int) (v : Nat) (h : bus w.log (read_transfer client reg) = ⟨r, v⟩) (hr : r < 0) :
    bme280_read bus client reg w = (- ENXIO, v % 256, w.after (read_transfer client reg)) := by
  have h' : bus w.log [{ addr := client.addr, flags := 0, len := 1, buf := [reg] },
      { addr := client.addr, flags := I2C_M_RD, len := 1, buf := [] }] = ⟨r, v⟩ := h
  simp only [bme280_read, i2c_transfer, h', World.after, read_transfer]
  rw [if_pos hr]

theorem bme280_write_world (bus : Adapter) (client : i2c_client) (reg b : Nat) (w : World) :
    (bme280_write bus client reg b w).2
      = w.after [{ addr := client.addr, flags := 0, len := 1, buf := [b] }] := by
  simp only [bme280_write, i2c_transfer, World.after]
  split <;> rfl

/-! ## Facts on the sample arithmetic -/

theorem byte_and_ff (b : Nat) (h : b < 256) : b &&& 0xFF = b := by
  have := Nat.and_pow_two_sub_one_eq_mod b 8
  norm_num at this
  rw [this]; exact Nat.mod_eq_of_lt h

theorem and_f_lt (b : Nat) : b &&& 0xF < 16 := by
  have := Nat.and_pow_two_sub_one_eq_mod b 4
  norm_num at this
  rw [this]; exact Nat.mod_lt _ (by norm_num)

theorem spec_raw_sample_lt (msb lsb xlsb : Nat) (h1 : msb < 256) (h2 : lsb < 256) :
    spec_raw_sample msb lsb xlsb < 2 ^ 20 := by
  unfold spec_raw_sample
  have hx := and_f_lt xlsb
  apply Nat.or_lt_two_pow
  · apply Nat.or_lt_two_pow
    · rw [Nat.shiftLeft_eq]; omega
    · rw [Nat.shiftLeft_eq]; omega
  · omega

theorem load_memcpy_u32 (buf : List Nat) (v : Nat) (h : v < 2 ^ 32) :
    load_u32 (memcpy_u32 buf v) = v := by
  simp only [load_u32, memcpy_u32, u32_bytes, List.cons_append, List.getD_cons_zero,
    List.getD_cons_succ]
  omega

/-- The value computed by the body of `bme280_read_temperature` from three bytes
is the formula of the specification. -/
theorem value_eq_spec (a b c : Nat) (ha : a < 256) (hb : b < 256) :
    (((a &&& 0xFF) <<< 12) % 2 ^ 32 ||| (((b &&& 0xFF) <<< 4) % 2 ^ 32))
        ||| ((c &&& 0xF) % 2 ^ 32) = spec_raw_sample a b c := by
  have hc := and_f_lt c
  rw [byte_and_ff a ha, byte_and_ff b hb]
  have e1 : (a <<< 12) % 2 ^ 32 = a <<< 12 := by
    apply Nat.mod_eq_of_lt; rw [Nat.shiftLeft_eq]; omega
  have e2 : (b <<< 4) % 2 ^ 32 = b <<< 4 := by
    apply Nat.mod_eq_of_lt; rw [Nat.shiftLeft_eq]; omega
  have e3 : (c &&& 0xF) % 2 ^ 32 = c &&& 0xF := by
    apply Nat.mod_eq_of_lt; omega
  rw [e1, e2, e3]; rfl

/-- Run of `bme280_read_temperature` when the three reads succeed. -/
theorem read_temperature_run (bus : Adapter) (dev : bme_dev) (buf : List Nat) (w : World)
    (r1 r2 r3 : Int) (msb lsb xlsb : Nat)
    (hbuf : dev.data = some buf)
    (h1 : bus w.log (read_transfer dev.client BME280_REGISTER_TEMPDATA_MSB) = ⟨r1, msb⟩)
    (h2 : bus (w.log ++ [read_transfer dev.client BME280_REGISTER_TEMPDATA_MSB])
            (read_transfer dev.client BME280_REGISTER_TEMPDATA_LSB) = ⟨r2, lsb⟩)
    (h3 : bus (w.log ++ [read_transfer dev.client BME280_REGISTER_TEMPDATA_MSB,
                         read_transfer dev.client BME280_REGISTER_TEMPDATA_LSB])
            (read_transfer dev.client BME280_REGISTER_TEMPDATA_XLSB) = ⟨r3, xlsb⟩)
    (hr1 : 0 ≤ r1) (hr2 : 0 ≤ r2) (hr3 : 0 ≤ r3)
    (hm : msb < 256) (hl : lsb < 256) (hx : xlsb < 256) :
    bme280_read_temperature bus dev w
      = some (0, { dev with data := some (memcpy_u32 buf (spec_raw_sample msb lsb xlsb)) },
          { log := w.log ++ [read_transfer dev.client BME280_REGISTER_TEMPDATA_MSB,
                             read_transfer dev.client BME280_REGISTER_TEMPDATA_LSB,
                             read_transfer dev.client BME280_REGISTER_TEMPDATA_XLSB],
            delay_ms := w.delay_ms }) := by
  have e1 := bme280_read_ok bus dev.client BME280_REGISTER_TEMPDATA_MSB w r1 msb h1 hr1
  have e2 := bme280_read_ok bus dev.client BME280_REGISTER_TEMPDATA_LSB
    (w.after (read_transfer dev.client BME280_REGISTER_TEMPDATA_MSB)) r2 lsb h2 hr2
  have e3 := bme280_read_ok bus dev.client BME280_REGISTER_TEMPDATA_XLSB
    ((w.after (read_transfer dev.client BME280_REGISTER_TEMPDATA_MSB)).after
      (read_transfer dev.client BME280_REGISTER_TEMPDATA_LSB)) r3 xlsb
    (by simpa [World.after] using h3) hr3
  simp only [bme280_read_temperature, e1, e2, e3, hbuf]
  rw [Nat.mod_eq_of_lt hm, Nat.mod_eq_of_lt hl, Nat.mod_eq_of_lt hx]
  have hv := value_eq_spec msb lsb xlsb hm hl
  norm_num at hv
  simp [World.after, hv]

/-! ## Sample decoding (`bme280_read_temperature`) -/

/-- C3: when the three reads of 0xFA, 0xFB, 0xFC (in that order) succeed and
return the bytes `msb`, `lsb`, `xlsb`, `bme280_read_temperature` returns 0, has
issued exactly these three reads, and the `unsigned int` it stored in the data
buffer is `(msb<<12) | (lsb<<4) | (xlsb & 0xF)`, a value below `2^20`. -/
theorem C3_decode_formula (bus : Adapter) (dev : bme_dev) (buf : List Nat) (w : World)
    (r1 r2 r3 : Int) (msb lsb xlsb : Nat)
    (hbuf : dev.data = some buf)
    (h1 : bus w.log (read_transfer dev.client 0xFA) = ⟨r1, msb⟩)
    (h2 : bus (w.log ++ [read_transfer dev.client 0xFA])
            (read_transfer dev.client 0xFB) = ⟨r2, lsb⟩)
    (h3 : bus (w.log ++ [read_transfer dev.client 0xFA, read_transfer dev.client 0xFB])
            (read_transfer dev.client 0xFC) = ⟨r3, xlsb⟩)
    (hr1 : 0 ≤ r1) (hr2 : 0 ≤ r2) (hr3 : 0 ≤ r3)
    (hm : msb < 256) (hl : lsb < 256) (hx : xlsb < 256) :
    ∃ dev1 w1, bme280_read_temperature bus dev w = some (0, dev1, w1)
      ∧ dev1.data.map load_u32 = some ((msb <<< 12) ||| (lsb <<< 4) ||| (xlsb &&& 0xF))
      ∧ (msb <<< 12) ||| (lsb <<< 4) ||| (xlsb &&& 0xF) < 2 ^ 20
      ∧ w1.log = w.log ++ [read_transfer dev.client 0xFA, read_transfer dev.client 0xFB,
                           read_transfer dev.client 0xFC] := by
  have hlt := spec_raw_sample_lt msb lsb xlsb hm hl
  refine ⟨_, _, read_temperature_run bus dev buf w r1 r2 r3 msb lsb xlsb hbuf h1 h2 h3
    hr1 hr2 hr3 hm hl hx, ?_, hlt, rfl⟩
  simp only [Option.map_some']
  rw [load_memcpy_u32 buf _ (lt_trans hlt (by norm_num))]
  rfl

/-- C3 at a concrete input: bytes 0x80, 0x00, 0x07 on a freshly opened device. -/
theorem C3_decode_formula_witness :
    ∃ dev1 w1, bme280_read_temperature bus_sample2 dev_open w0 = some (0, dev1, w1)
      ∧ dev1.data.map load_u32 = some ((0x80 <<< 12) ||| (0x00 <<< 4) ||| (0x07 &&& 0xF))
      ∧ (0x80 <<< 12) ||| (0x00 <<< 4) ||| (0x07 &&& 0xF) < 2 ^ 20
      ∧ w1.log = w0.log ++ [read_transfer dev_open.client 0xFA,
                            read_transfer dev_open.client 0xFB,
                            read_transfer dev_open.client 0xFC] :=
  C3_decode_formula bus_sample2 dev_open (List.replicate BME_SIZE 0) w0 1 1 1 0x80 0x00 0x07
    rfl rfl rfl rfl (by decide) (by decide) (by decide) (by decide) (by decide) (by decide)

/-- C4 as stated fails: with the reads returning 0x1A, 0xB0, 0x50 the decoded
value is not 0x1AB05. -/
theorem C4_test_vector_counterexample :
    decoded (bme280_read_temperature bus_sample dev_open w0) ≠ some 0x1AB05 := by
  rw [read_temperature_run bus_sample dev_open (List.replicate BME_SIZE 0) w0 1 1 1
    0x1A 0xB0 0x50 rfl rfl rfl rfl (by decide) (by decide) (by decide) (by decide) (by decide)
    (by decide)]
  simp only [decoded, Option.map_some']
  rw [load_memcpy_u32 _ _ (by decide)]
  decide

/-- C4 (amended): when the three reads return MSB = 0x1A, LSB = 0xB0,
XLSB = 0x50, the decoded value is `(0x1A<<12) | (0xB0<<4) | (0x50 & 0xF)`, which
is 0x1AB00: only the low four bits of XLSB enter the value. -/
theorem C4_test_vector (bus : Adapter) (dev : bme_dev) (buf : List Nat) (w : World)
    (r1 r2 r3 : Int)
    (hbuf : dev.data = some buf)
    (h1 : bus w.log (read_transfer dev.client 0xFA) = ⟨r1, 0x1A⟩)
    (h2 : bus (w.log ++ [read_transfer dev.client 0xFA])
            (read_transfer dev.client 0xFB) = ⟨r2, 0xB0⟩)
    (h3 : bus (w.log ++ [read_transfer dev.client 0xFA, read_transfer dev.client 0xFB])
            (read_transfer dev.client 0xFC) = ⟨r3, 0x50⟩)
    (hr1 : 0 ≤ r1) (hr2 : 0 ≤ r2) (hr3 : 0 ≤ r3) :
    decoded (bme280_read_temperature bus dev w) = some 0x1AB00
      ∧ (0x1A <<< 12) ||| (0xB0 <<< 4) ||| (0x50 &&& 0xF) = 0x1AB00 := by
  rw [read_temperature_run bus dev buf w r1 r2 r3 0x1A 0xB0 0x50 hbuf h1 h2 h3 hr1 hr2 hr3
    (by decide) (by decide) (by decide)]
  simp only [decoded, Option.map_some']
  rw [load_memcpy_u32 _ _ (by decide)]
  decide

/-- C4 (amended) on the scripted bus of the test vector. -/
theorem C4_test_vector_witness :
    decoded (bme280_read_temperature bus_sample dev_open w0) = some 0x1AB00
      ∧ (0x1A <<< 12) ||| (0xB0 <<< 4) ||| (0x50 &&& 0xF) = 0x1AB00 :=
  C4_test_vector bus_sample dev_open (List.replicate BME_SIZE 0) w0 1 1 1 rfl rfl rfl rfl
    (by decide) (by decide) (by decide)

/-! ## Register write (`bme280_write`) -/

/-- C9 at the soft reset: for every bus, the transfer `bme280_write` hands over
for register 0xE0 and payload 0xB6 is one write message of length 1 holding
only 0xB6; it is not the message "0xE0 then 0xB6" of the specification. -/
theorem C9_soft_reset_wire (bus : Adapter) (client : i2c_client) (w : World) :
    (bme280_write bus client BME280_REGISTER_SOFTRESET 0xB6 w).2.log
        = w.log ++ [[{ addr := client.addr, flags := 0, len := 1, buf := [0xB6] }]]
      ∧ (bme280_write bus client BME280_REGISTER_SOFTRESET 0xB6 w).2.log
        ≠ w.log ++ [spec_write_transfer client 0xE0 0xB6] := by
  rw [bme280_write_world]
  refine ⟨rfl, ?_⟩
  simp [World.after, spec_write_transfer]

/-! ## Identity check (`bme280_probe`) -/

/-- C6: when the read of the chip-identity register 0xD0 succeeds with a byte
other than 0x60, `bme280_probe` returns `-ENODEV`, attaches nothing, and the
only transfer it has issued is that read (no soft-reset write, nothing later). -/
theorem C6_identity_mismatch (bus : Adapter) (env : ProbeEnv) (client : i2c_client)
    (w : World) (r : Int) (v : Nat)
    (hf : env.functionality = true)
    (h : bus w.log (read_transfer client 0xD0) = ⟨r, v⟩) (hr : 0 ≤ r)
    (hv : v < 256) (hne : v ≠ 0x60) :
    bme280_probe bus env client w
      = { err := - ENODEV, clientdata := none,
          w := { log := w.log ++ [read_transfer client 0xD0], delay_ms := w.delay_ms } } := by
  have e := bme280_read_ok bus client BME280_REGISTER_CHIPID w r v h hr
  have hv' : v % 256 ≠ 96 := by rw [Nat.mod_eq_of_lt hv]; exact hne
  simp only [bme280_probe, e, hf]
  simp [hv', World.after, BME280_REGISTER_CHIPID]

/-- C6 at a concrete input: a device answering the identity read with 0x61. -/
theorem C6_identity_mismatch_witness :
    bme280_probe bus_wrong_id probe_env_ok client0 w0
      = { err := - ENODEV, clientdata := none,
          w := { log := w0.log ++ [read_transfer client0 0xD0], delay_ms := w0.delay_ms } } :=
  C6_identity_mismatch bus_wrong_id probe_env_ok client0 w0 1 0x61 rfl rfl (by decide)
    (by decide) (by decide)

/-! ## Calibration poll (`is_reading_calibration`, the loop of `bme280_probe`) -/

/-- A status read that succeeds with bit 0 set makes `is_reading_calibration`
return true, after exactly one read of the status register. -/
theorem is_reading_calibration_busy (bus : Adapter) (client : i2c_client) (w : World)
    (hr : 0 ≤ (bus w.log (read_transfer client 0xF3)).ret)
    (hb : (bus w.log (read_transfer client 0xF3)).rd % 256 &&& 1 = 1) :
    is_reading_calibration bus client w = (true, w.after (read_transfer client 0xF3)) := by
  have e := bme280_read_ok bus client BME280_REGISTER_STATUS w _ _ rfl hr
  have hb' : (bus w.log (read_transfer client BME280_REGISTER_STATUS)).rd % 256 &&& 1 = 1 := hb
  simp only [is_reading_calibration, e]
  rw [if_neg (by decide), decide_eq_true hb']
  rfl

/-- The loop under a busy status register.  `base` is the log when the loop is
first entered; if every poll made after `m` earlier polls finds the busy bit
set, then the loop entered with `reset_check = k`, `k + n = 11`, polls `n + 1`
more times, sleeps as many seconds and returns `-ENXIO`. -/
theorem calibration_loop_busy (bus : Adapter) (client : i2c_client) (base : List (List i2c_msg))
    (hbusy : ∀ m, 0 ≤ (bus (base ++ List.replicate m (read_transfer client 0xF3))
          (read_transfer client 0xF3)).ret
      ∧ (bus (base ++ List.replicate m (read_transfer client 0xF3))
          (read_transfer client 0xF3)).rd % 256 &&& 1 = 1) :
    ∀ (n k m d : Nat), k + n = 11 →
      calibration_loop bus client
          { log := base ++ List.replicate m (read_transfer client 0xF3), delay_ms := d } k
        = (some (- ENXIO),
            { log := base ++ List.replicate (m + (n + 1)) (read_transfer client 0xF3),
              delay_ms := d + 1000 * (n + 1) }) := by
  intro n
  induction n with
  | zero =>
    intro k m d hk
    have hk' : k = 11 := by omega
    subst hk'
    rw [calibration_loop, is_reading_calibration_busy bus client _ (hbusy m).1 (hbusy m).2]
    simp only [if_true, World.after, mdelay, List.append_assoc, ← List.replicate_succ']
    rw [if_pos (by decide)]
  | succ n ih =>
    intro k m d hk
    have hk' : ¬ k > 10 := by omega
    rw [calibration_loop, is_reading_calibration_busy bus client _ (hbusy m).1 (hbusy m).2]
    simp only [if_true, hk', if_false, World.after, mdelay, List.append_assoc,
      ← List.replicate_succ']
    rw [ih (k + 1) (m + 1) _ (by omega)]
    have h1 : m + 1 + (n + 1) = m + (n + 1 + 1) := by omega
    have h2 : d + 1 * 1000 + 1000 * (n + 1) = d + 1000 * (n + 1 + 1) := by omega
    rw [h1, h2]

/-- Run of `bme280_probe` on a sensor that identifies itself, accepts the soft
reset and then keeps the calibration-busy bit set. -/
theorem probe_busy_run (bus : Adapter) (env : ProbeEnv) (client : i2c_client) (w : World)
    (r : Int) (hf : env.functionality = true)
    (hid : bus w.log (read_transfer client 0xD0) = ⟨r, 0x60⟩) (hr : 0 ≤ r)
    (hreset : 0 ≤ (bus (w.log ++ [read_transfer client 0xD0])
        [{ addr := client.addr, flags := 0, len := 1, buf := [0xB6] }]).ret)
    (hbusy : ∀ m,
      0 ≤ (bus (w.log ++ [read_transfer client 0xD0,
              [{ addr := client.addr, flags := 0, len := 1, buf := [0xB6] }]]
            ++ List.replicate m (read_transfer client 0xF3)) (read_transfer client 0xF3)).ret
      ∧ (bus (w.log ++ [read_transfer client 0xD0,
              [{ addr := client.addr, flags := 0, len := 1, buf := [0xB6] }]]
            ++ List.replicate m (read_transfer client 0xF3)) (read_transfer client 0xF3)).rd
          % 256 &&& 1 = 1) :
    bme280_probe bus env client w
      = { err := - ENXIO, clientdata := none,
          w := { log := w.log ++ [read_transfer client 0xD0,
                    [{ addr := client.addr, flags := 0, len := 1, buf := [0xB6] }]]
                  ++ List.replicate 12 (read_transfer client 0xF3),
                 delay_ms := w.delay_ms + 1000 + 1000 * 12 } } := by
  have e := bme280_read_ok bus client BME280_REGISTER_CHIPID w r 0x60 hid hr
  have hs : ¬ (bme280_write bus client BME280_REGISTER_SOFTRESET 0xB6
      (w.after (read_transfer client BME280_REGISTER_CHIPID))).1 < 0 := by
    simp only [bme280_write, i2c_transfer, World.after]
    split
    · rename_i hneg
      exact absurd hreset (not_le.mpr hneg)
    · simp
  have hl := calibration_loop_busy bus client _ hbusy 11 0 0 (w.delay_ms + 1 * 1000) rfl
  simp only [List.replicate_zero, List.append_nil] at hl
  simp only [bme280_probe, e, hf]
  simp only [Bool.not_true, Bool.false_eq_true, if_false, lt_self_iff_false]
  rw [if_neg (by decide), if_neg hs, bme280_write_world]
  simp only [mdelay, World.after, List.append_assoc, List.singleton_append,
    BME280_REGISTER_CHIPID]
  rw [hl]
  simp

/-- A scripted adapter answers with its default once the script is used up. -/
theorem scripted_default (script : List Reply) (dflt : Reply) (hist : List (List i2c_msg))
    (msgs : List i2c_msg) (h : script.length ≤ hist.length) :
    scripted script dflt hist msgs = dflt := by
  unfold scripted
  exact List.getD_eq_default _ _ h

/-- C5 at the failing input: on a sensor that identifies itself, accepts the
soft reset and then reports the calibration-busy bit at every poll,
`bme280_probe` gives up with `-ENXIO` only after 12 reads of the status
register (the guard `reset_check++ > 10` lets polls 1 to 11 through), not after
10. -/
theorem C5_busy_sensor_polled_twelve_times :
    bme280_probe bus_busy probe_env_ok client0 w0
      = { err := - ENXIO, clientdata := none,
          w := { log := [read_transfer client0 0xD0,
                    [{ addr := 0x77, flags := 0, len := 1, buf := [0xB6] }]]
                  ++ List.replicate 12 (read_transfer client0 0xF3),
                 delay_ms := 13000 } }
    ∧ (bme280_probe bus_busy probe_env_ok client0 w0).w.log.count (read_transfer client0 0xF3)
        = 12
    ∧ (bme280_probe bus_busy probe_env_ok client0 w0).w.log.count (read_transfer client0 0xF3)
        ≠ 10 := by
  have hrun := probe_busy_run bus_busy probe_env_ok client0 w0 1 rfl rfl (by decide)
    (by decide)
    (fun m => by
      rw [show bus_busy = scripted [ok 0x60, ok 0] (ok 1) from rfl,
        scripted_default _ _ _ _ (by simp [w0])]
      exact ⟨by decide, by decide⟩)
  rw [hrun]
  refine ⟨rfl, by decide, by decide⟩

/-- C10 at the failing input: the first read of the status register fails on
the bus, yet `bme280_probe` goes on polling, configures the sensor, returns 0
and attaches the device. -/
theorem C10_failed_status_read_swallowed :
    (bus_status_fail [read_transfer client0 0xD0,
        [{ addr := 0x77, flags := 0, len := 1, buf := [0xB6] }]]
        (read_transfer client0 0xF3)).ret < 0
    ∧ bme280_probe bus_status_fail probe_env_ok client0 w0
      = { err := 0, clientdata := some dev0,
          w := { log := [read_transfer client0 0xD0,
                    [{ addr := 0x77, flags := 0, len := 1, buf := [0xB6] }],
                    read_transfer client0 0xF3, read_transfer client0 0xF3,
                    [{ addr := 0x77, flags := 0, len := 1, buf := [0] }],
                    [{ addr := 0x77, flags := 0, len := 1, buf := [0] }],
                    [{ addr := 0x77, flags := 0, len := 1, buf := [0xC] }],
                    [{ addr := 0x77, flags := 0, len := 1, buf := [0x92] }]],
                 delay_ms := 2000 } } := by
  refine ⟨by decide, ?_⟩
  simp [bme280_probe, calibration_loop, is_reading_calibration, bme280_set_sampling,
    bme280_read, bme280_write, i2c_transfer, mdelay, int_to_bool, bus_status_fail, scripted,
    ok, nak, probe_env_ok, client0, w0, dev0, read_transfer, ENXIO, MODE_SLEEP, I2C_M_RD,
    BME280_REGISTER_CHIPID, BME280_REGISTER_SOFTRESET, BME280_REGISTER_STATUS,
    BME280_REGISTER_CONTROL, BME280_REGISTER_CONTROLHUMID, BME280_REGISTER_CONFIG]

/-- C8 at the failing input: the sensor is ready, each of the four configuration
writes fails on the bus, yet `bme280_probe` returns 0 and attaches the device. -/
theorem C8_config_write_failures_ignored :
    (∀ hist msgs, 3 ≤ hist.length → (bus_config_fail hist msgs).ret < 0)
    ∧ bme280_probe bus_config_fail probe_env_ok client0 w0
      = { err := 0, clientdata := some dev0,
          w := { log := [read_transfer client0 0xD0,
                    [{ addr := 0x77, flags := 0, len := 1, buf := [0xB6] }],
                    read_transfer client0 0xF3,
                    [{ addr := 0x77, flags := 0, len := 1, buf := [0] }],
                    [{ addr := 0x77, flags := 0, len := 1, buf := [0] }],
                    [{ addr := 0x77, flags := 0, len := 1, buf := [0xC] }],
                    [{ addr := 0x77, flags := 0, len := 1, buf := [0x92] }]],
                 delay_ms := 1000 } } := by
  constructor
  · intro hist msgs h
    have hd : ∀ i, 3 ≤ i → ([ok 0x60, ok 0, ok 0, nak, nak, nak, nak].getD i nak).ret < 0 := by
      intro i hi
      rcases Nat.lt_or_ge i 7 with h7 | h7
      · interval_cases i <;> decide
      · rw [List.getD_eq_default _ _ (by simpa using h7)]; decide
    exact hd hist.length h
  · simp [bme280_probe, calibration_loop, is_reading_calibration, bme280_set_sampling,
      bme280_read, bme280_write, i2c_transfer, mdelay, int_to_bool, bus_config_fail, scripted,
      ok, nak, probe_env_ok, client0, w0, dev0, read_transfer, ENXIO, MODE_SLEEP, I2C_M_RD,
      BME280_REGISTER_CHIPID, BME280_REGISTER_SOFTRESET, BME280_REGISTER_STATUS,
      BME280_REGISTER_CONTROL, BME280_REGISTER_CONTROLHUMID, BME280_REGISTER_CONFIG]

/-! ## Decimal formatting -/

theorem digitChar_isDigit (d : Nat) (h : d < 10) : (Nat.digitChar d).isDigit = true := by
  interval_cases d <;> decide

theorem digitChar_value (d : Nat) (h : d < 10) : (Nat.digitChar d).toNat - '0'.toNat = d := by
  interval_cases d <;> decide

theorem digitChar_ne_zero (d : Nat) (h : d < 10) (h0 : d ≠ 0) : Nat.digitChar d ≠ '0' := by
  interval_cases d <;> first | exact absurd rfl h0 | decide

theorem dec_digits_ne_nil (n : Nat) : dec_digits n ≠ [] := by
  rw [dec_digits]
  split <;> simp

theorem dec_digits_isDigit (n : Nat) : ∀ c ∈ dec_digits n, c.isDigit = true := by
  induction n using Nat.strong_induction_on with
  | _ n ih =>
    intro c hc
    rw [dec_digits] at hc
    split at hc
    · rename_i h
      rw [List.mem_singleton] at hc
      rw [hc]; exact digitChar_isDigit n h
    · rename_i h
      rw [List.mem_append, List.mem_singleton] at hc
      rcases hc with hc | hc
      · exact ih (n / 10) (by omega) c hc
      · rw [hc]; exact digitChar_isDigit _ (Nat.mod_lt _ (by norm_num))

/-- The value of a digit string, most significant digit first. -/
theorem dec_digits_value (n : Nat) :
    (dec_digits n).foldl (fun acc c => 10 * acc + (c.toNat - '0'.toNat)) 0 = n := by
  induction n using Nat.strong_induction_on with
  | _ n ih =>
    rw [dec_digits]
    split
    · rename_i h
      simp only [List.foldl_cons, List.foldl_nil]
      rw [digitChar_value n h]; omega
    · rename_i h
      rw [List.foldl_append, ih (n / 10) (by omega)]
      simp only [List.foldl_cons, List.foldl_nil]
      rw [digitChar_value _ (Nat.mod_lt _ (by norm_num))]; omega

/-- No leading zero: a digit string that starts with '0' is the string "0". -/
theorem dec_digits_head (n : Nat) : (dec_digits n).head? = some '0' → dec_digits n = ['0'] := by
  induction n using Nat.strong_induction_on with
  | _ n ih =>
    intro hh
    rw [dec_digits] at hh ⊢
    split at hh
    · rename_i h
      rw [if_pos h]
      simp only [List.head?_cons, Option.some.injEq] at hh
      rw [hh]
    · rename_i h
      exfalso
      have hne := dec_digits_ne_nil (n / 10)
      rw [List.head?_append_of_ne_nil _ hne] at hh
      have h1 := ih (n / 10) (by omega) hh
      have h2 := dec_digits_value (n / 10)
      rw [h1] at h2
      simp at h2
      omega

theorem takeWhile_digits_append (ds rest : List Char) (h : ∀ c ∈ ds, c.isDigit = true) :
    (ds ++ ',' :: rest).takeWhile Char.isDigit = ds := by
  induction ds with
  | nil => simp [List.takeWhile]
  | cons a t ih =>
    have ha : a.isDigit = true := h a (List.mem_cons_self _ _)
    simp only [List.cons_append, List.takeWhile_cons, ha, if_true]
    rw [ih (fun c hc => h c (List.mem_cons_of_mem _ hc))]

theorem parse_dec_digits (n : Nat) (rest : List Char) :
    parse_digit_prefix (dec_digits n ++ ',' :: rest) = n := by
  unfold parse_digit_prefix
  rw [takeWhile_digits_append _ _ (dec_digits_isDigit n)]
  exact dec_digits_value n

theorem sprintf_value_small (v : Nat) (h : v < 2 ^ 31) :
    sprintf_value v = dec_digits v ++ [',', '\n'] := by
  have h1 : v % 2 ^ 32 = v := Nat.mod_eq_of_lt (by omega)
  have h2 : ¬ ((v : Int) < 0) := by omega
  simp only [sprintf_value, int_of_u32, h1, if_pos h, fmt_d, if_neg h2, Int.toNat_ofNat]

/-! ## Reading a sample through the device file (`bme_read`) -/

/-- Run of `bme_read` when the lock is taken, the position is below `BME_SIZE`,
the three register reads succeed and the kernel services do not fail: whatever
`count` is, the whole formatted line is copied out and `*f_pos` is left as it
was. -/
theorem bme_read_run (bus : Adapter) (env : ReadEnv) (dev : bme_dev) (buf : List Nat)
    (count : Nat) (f_pos : Int) (w : World) (r1 r2 r3 : Int) (msb lsb xlsb : Nat)
    (hlock : env.lock_killed = false) (hmem : env.kmalloc_ok = true)
    (hcopy : env.copy_fault = false) (hpos : f_pos < 32)
    (hbuf : dev.data = some buf)
    (h1 : bus w.log (read_transfer dev.client 0xFA) = ⟨r1, msb⟩)
    (h2 : bus (w.log ++ [read_transfer dev.client 0xFA])
            (read_transfer dev.client 0xFB) = ⟨r2, lsb⟩)
    (h3 : bus (w.log ++ [read_transfer dev.client 0xFA, read_transfer dev.client 0xFB])
            (read_transfer dev.client 0xFC) = ⟨r3, xlsb⟩)
    (hr1 : 0 ≤ r1) (hr2 : 0 ≤ r2) (hr3 : 0 ≤ r3)
    (hm : msb < 256) (hl : lsb < 256) (hx : xlsb < 256) :
    bme_read bus env dev count f_pos w
      = some { retval := ((dec_digits (spec_raw_sample msb lsb xlsb)).length + 2 : Nat),
               f_pos := f_pos,
               user := dec_digits (spec_raw_sample msb lsb xlsb) ++ [',', '\n'],
               dev := { dev with data := some (memcpy_u32 (memset_zero buf BME_SIZE)
                          (spec_raw_sample msb lsb xlsb)) },
               w := { log := w.log ++ [read_transfer dev.client 0xFA,
                                       read_transfer dev.client 0xFB,
                                       read_transfer dev.client 0xFC],
                      delay_ms := w.delay_ms } } := by
  have hlt := spec_raw_sample_lt msb lsb xlsb hm hl
  have hrun := read_temperature_run bus { dev with data := some (memset_zero buf BME_SIZE) }
    (memset_zero buf BME_SIZE) w r1 r2 r3 msb lsb xlsb rfl h1 h2 h3 hr1 hr2 hr3 hm hl hx
  have hpos' : ¬ (f_pos ≥ (BME_SIZE : Int)) := by
    simp only [BME_SIZE]; push_cast; omega
  simp only [bme_read, hlock, hmem, hcopy, hbuf, hrun]
  simp only [Bool.false_eq_true, if_false, if_neg hpos', lt_self_iff_false, Bool.not_true]
  rw [load_memcpy_u32 _ _ (lt_trans hlt (by norm_num)),
    sprintf_value_small _ (lt_trans hlt (by norm_num))]
  simp [BME280_REGISTER_TEMPDATA_MSB, BME280_REGISTER_TEMPDATA_LSB,
    BME280_REGISTER_TEMPDATA_XLSB]

/-- C7: for every byte triple, when `bme_read` succeeds (lock taken, position
below 32, the three register reads return `msb`, `lsb`, `xlsb`, no kernel
failure) the text it copies out is a non-empty run of decimal digits without a
leading zero, followed by a comma and a newline; its length is the return
value; and parsing its digit prefix gives back the decoded value
`(msb<<12) | (lsb<<4) | (xlsb & 0xF)`. -/
theorem C7_formatter_round_trip (bus : Adapter) (env : ReadEnv) (dev : bme_dev)
    (buf : List Nat) (count : Nat) (f_pos : Int) (w : World) (r1 r2 r3 : Int)
    (msb lsb xlsb : Nat)
    (hlock : env.lock_killed = false) (hmem : env.kmalloc_ok = true)
    (hcopy : env.copy_fault = false) (hpos : f_pos < 32)
    (hbuf : dev.data = some buf)
    (h1 : bus w.log (read_transfer dev.client 0xFA) = ⟨r1, msb⟩)
    (h2 : bus (w.log ++ [read_transfer dev.client 0xFA])
            (read_transfer dev.client 0xFB) = ⟨r2, lsb⟩)
    (h3 : bus (w.log ++ [read_transfer dev.client 0xFA, read_transfer dev.client 0xFB])
            (read_transfer dev.client 0xFC) = ⟨r3, xlsb⟩)
    (hr1 : 0 ≤ r1) (hr2 : 0 ≤ r2) (hr3 : 0 ≤ r3)
    (hm : msb < 256) (hl : lsb < 256) (hx : xlsb < 256) :
    ∃ out ds, bme_read bus env dev count f_pos w = some out
      ∧ out.retval = (out.user.length : Int)
      ∧ out.user = ds ++ [',', '\n']
      ∧ ds ≠ []
      ∧ (∀ c ∈ ds, c.isDigit = true)
      ∧ (ds.head? = some '0' → ds = ['0'])
      ∧ parse_digit_prefix out.user = (msb <<< 12) ||| (lsb <<< 4) ||| (xlsb &&& 0xF)
      ∧ out.dev.data.map load_u32 = some ((msb <<< 12) ||| (lsb <<< 4) ||| (xlsb &&& 0xF)) := by
  have hlt := spec_raw_sample_lt msb lsb xlsb hm hl
  refine ⟨_, dec_digits (spec_raw_sample msb lsb xlsb),
    bme_read_run bus env dev buf count f_pos w r1 r2 r3 msb lsb xlsb hlock hmem hcopy hpos
      hbuf h1 h2 h3 hr1 hr2 hr3 hm hl hx, ?_, rfl, dec_digits_ne_nil _, dec_digits_isDigit _,
    dec_digits_head _, ?_, ?_⟩
  · simp
  · exact parse_dec_digits _ _
  · simp only [Option.map_some']
    rw [load_memcpy_u32 _ _ (lt_trans hlt (by norm_num))]
    rfl

/-- C7 at a concrete input: the sample 0x1A, 0xB0, 0x50 read with `count = 32`. -/
theorem C7_formatter_round_trip_witness :
    ∃ out ds, bme_read bus_sample read_env_ok dev_open 32 0 w0 = some out
      ∧ out.retval = (out.user.length : Int)
      ∧ out.user = ds ++ [',', '\n']
      ∧ ds ≠ []
      ∧ (∀ c ∈ ds, c.isDigit = true)
      ∧ (ds.head? = some '0' → ds = ['0'])
      ∧ parse_digit_prefix out.user = (0x1A <<< 12) ||| (0xB0 <<< 4) ||| (0x50 &&& 0xF)
      ∧ out.dev.data.map load_u32 = some ((0x1A <<< 12) ||| (0xB0 <<< 4) ||| (0x50 &&& 0xF)) :=
  C7_formatter_round_trip bus_sample read_env_ok dev_open (List.replicate BME_SIZE 0) 32 0 w0
    1 1 1 0x1A 0xB0 0x50 rfl rfl rfl (by decide) rfl rfl rfl rfl (by decide) (by decide)
    (by decide) (by decide) (by decide) (by decide)

/-- No path through `bme_read` changes `*f_pos`. -/
theorem bme_read_keeps_f_pos (bus : Adapter) (env : ReadEnv) (dev : bme_dev) (count : Nat)
    (f_pos : Int) (w : World) (out : ReadOut)
    (h : bme_read bus env dev count f_pos w = some out) : out.f_pos = f_pos := by
  unfold bme_read at h
  simp only at h
  repeat' split at h
  all_goals first
    | (cases h; rfl)
    | (exact absurd h (by simp))

/-- C1 at the failing input: a first `bme_read` on a fresh session returns 8
bytes and leaves the position at 0; the next `bme_read` of the same session, at
that position, again returns 8 bytes and has issued three more bus transfers. -/
theorem C1_second_read_decodes_again :
    ∃ out1 out2,
      bme_read bus_const read_env_ok dev_open 32 0 w0 = some out1
      ∧ out1.retval = 8 ∧ out1.f_pos = 0 ∧ out1.w.log.length = 3
      ∧ bme_read bus_const read_env_ok out1.dev 32 out1.f_pos out1.w = some out2
      ∧ out2.retval = 8 ∧ out2.f_pos = 0 ∧ out2.w.log.length = 6 := by
  have hd : dec_digits (spec_raw_sample 0x21 0x21 0x21) = ['1', '3', '5', '6', '9', '7'] := by
    rw [show spec_raw_sample 0x21 0x21 0x21 = 135697 from by decide]
    simp [dec_digits]
    decide
  refine ⟨_, _,
    bme_read_run bus_const read_env_ok dev_open (List.replicate BME_SIZE 0) 32 0 w0 1 1 1
      0x21 0x21 0x21 rfl rfl rfl (by decide) rfl rfl rfl rfl (by decide) (by decide)
      (by decide) (by decide) (by decide) (by decide),
    ?_, rfl, rfl,
    bme_read_run bus_const read_env_ok _ _ 32 0 _ 1 1 1
      0x21 0x21 0x21 rfl rfl rfl (by decide) rfl rfl rfl rfl (by decide) (by decide)
      (by decide) (by decide) (by decide) (by decide),
    ?_, rfl, rfl⟩
  · simp only [hd]; rfl
  · simp only [hd]; rfl

/-- C2 at the failing input: `bme_read` asked for 5 bytes on a fresh session
copies 8 bytes to the caller and returns 8, and the position is still 0
afterwards. -/
theorem C2_short_read_overruns :
    ∃ out,
      bme_read bus_sample read_env_ok dev_open 5 0 w0 = some out
      ∧ out.user = ['1', '0', '9', '3', '1', '2', ',', '\n']
      ∧ out.retval = 8 ∧ out.f_pos = 0 := by
  have hd : dec_digits (spec_raw_sample 0x1A 0xB0 0x50) = ['1', '0', '9', '3', '1', '2'] := by
    rw [show spec_raw_sample 0x1A 0xB0 0x50 = 109312 from by decide]
    simp [dec_digits]
    decide
  refine ⟨_,
    bme_read_run bus_sample read_env_ok dev_open (List.replicate BME_SIZE 0) 5 0 w0 1 1 1
      0x1A 0xB0 0x50 rfl rfl rfl (by decide) rfl rfl rfl rfl (by decide) (by decide)
      (by decide) (by decide) (by decide) (by decide),
    ?_, ?_, rfl⟩
  · simp only [hd]; rfl
  · simp only [hd]; rfl

end BME280
